import Mathlib

/-!
Shallow embedding of the file-upload backend (Express + Cloudinary + MongoDB,
single server file) and proofs of its specified properties.

The server file defines:
  - a mongoose `File` model with fields filename, originalName, cloudinaryUrl,
    uploadDate (default Date.now), plus the store-assigned `_id`;
  - multer memory storage with a 10 MiB fileSize limit;
  - routes: GET /api/test, POST /api/upload, GET /api/files,
    DELETE /api/files/:id, GET /health.

We model the metadata store as a list of records plus a counter for the next
store-assigned id, external outcomes (Cloudinary call, stream, DB save) as
explicit parameters, and observable side effects as a trace list.
-/

/-- A JSON value, as produced by the server's `res.json(...)` calls. -/
inductive JsonVal where
  | str (s : String)
  | num (n : Nat)
  | bool (b : Bool)
  | obj (fields : List (String × JsonVal))
  | arr (elems : List JsonVal)

/-- Field lookup on a JSON object (first binding wins, as in a JS object literal). -/
def JsonVal.getField (j : JsonVal) (key : String) : Option JsonVal :=
  match j with
  | .obj fields => fields.lookup key
  | _ => none

/-- An HTTP response: status code plus JSON body. -/
structure HttpResponse where
  status : Nat
  body : JsonVal

/-- The file object multer places on `req.file` (memory storage). -/
structure UploadedFile where
  originalname : String
  mimetype : String
  size : Nat
  buffer : List Nat
deriving Repr, DecidableEq

/-- A persisted document of the mongoose `File` model (`fileSchema`):
filename, originalName, cloudinaryUrl, uploadDate, plus the store-assigned
`_id`. Timestamps and ids are modelled as naturals. -/
structure FileRecord where
  mongoId : Nat
  filename : String
  originalName : String
  cloudinaryUrl : String
  uploadDate : Nat
deriving Repr, DecidableEq

/-- The metadata store: the persisted documents plus the next id MongoDB
would assign. -/
structure Store where
  records : List FileRecord
  nextId : Nat
deriving Repr, DecidableEq

/-- Observable calls to the external services, in order. -/
inductive Effect where
  | cloudinaryUploadStream
  | cloudinaryDestroy
  | dbSave
  | dbFindAll
  | dbFindById
  | dbDeleteById
deriving Repr, DecidableEq

/-- Outcome of the `cloudinary.uploader.upload_stream` round trip: either the
callback delivers a result with a secure URL, or the callback delivers an
error, or the node stream itself errors. -/
inductive CloudinaryOutcome where
  | ok (secureUrl : String)
  | uploadError (msg : String)
  | streamError (msg : String)
deriving Repr, DecidableEq

/-- The process environment variables the server reads for Cloudinary.
`none` is an unset variable; JS truthiness of a set variable is
emptiness of the string. -/
structure Env where
  cloudinaryCloudName : Option String
  cloudinaryApiKey : Option String
  cloudinaryApiSecret : Option String
deriving Repr, DecidableEq

/-- JS truthiness of `process.env.X` (`!!x`): false for unset or empty. -/
def truthy : Option String → Bool
  | none => false
  | some s => s ≠ ""

/-- `10 * 1024 * 1024`, the multer `fileSize` limit. -/
def fileSizeLimit : Nat := 10 * 1024 * 1024

/-- The serialized shape of a raw mongoose document, as returned by
`res.json(files)` in GET /api/files: the schema fields plus the
store-assigned `_id` and mongoose's default version key `__v`. Every
document here is created by `new File(...).save()` and never
version-mutated afterwards, so `__v` is always 0. -/
def FileRecord.toMongoJson (r : FileRecord) : List (String × JsonVal) :=
  [("_id", .num r.mongoId),
   ("filename", .str r.filename),
   ("originalName", .str r.originalName),
   ("cloudinaryUrl", .str r.cloudinaryUrl),
   ("uploadDate", .num r.uploadDate),
   ("__v", .num 0)]

/-- The `file` object in the POST /api/upload success response. -/
def uploadFileJson (r : FileRecord) : List (String × JsonVal) :=
  [("id", .num r.mongoId),
   ("filename", .str r.filename),
   ("url", .str r.cloudinaryUrl),
   ("uploadDate", .num r.uploadDate)]

/-- The full POST /api/upload success body. -/
def uploadSuccessBody (r : FileRecord) : JsonVal :=
  .obj [("message", .str "File uploaded successfully"),
        ("file", .obj (uploadFileJson r))]

/-- Result of one request against the server: response, new store state,
trace of external-service calls. -/
structure ReqResult where
  response : HttpResponse
  store : Store
  effects : List Effect

/-- The POST /api/upload route handler body (after multer has run):
missing file check, Cloudinary upload, DB save, success response; any
failure is caught and answered with a 500 carrying the error message. -/
def uploadHandler (store : Store) (file : Option UploadedFile)
    (cloud : CloudinaryOutcome) (save : Except String Unit) (now : Nat) :
    ReqResult :=
  match file with
  | none =>
      ⟨⟨400, .obj [("error", .str "No file uploaded")]⟩, store, []⟩
  | some f =>
      match cloud with
      | .uploadError m =>
          ⟨⟨500, .obj [("error", .str "Upload failed"),
                       ("details", .str ("Cloudinary error: " ++ m))]⟩,
           store, [.cloudinaryUploadStream]⟩
      | .streamError m =>
          ⟨⟨500, .obj [("error", .str "Upload failed"),
                       ("details", .str ("Stream error: " ++ m))]⟩,
           store, [.cloudinaryUploadStream]⟩
      | .ok url =>
          match save with
          | .error m =>
              ⟨⟨500, .obj [("error", .str "Upload failed"),
                           ("details", .str m)]⟩,
               store, [.cloudinaryUploadStream, .dbSave]⟩
          | .ok _ =>
              let doc : FileRecord :=
                ⟨store.nextId, f.originalname, f.originalname, url, now⟩
              ⟨⟨200, uploadSuccessBody doc⟩,
               ⟨store.records ++ [doc], store.nextId + 1⟩,
               [.cloudinaryUploadStream, .dbSave]⟩

/-- The full POST /api/upload request: the multer middleware enforces the
10 MiB `fileSize` limit and aborts the request with a LIMIT_FILE_SIZE error
before the route handler runs; otherwise the handler runs. -/
def uploadRequest (store : Store) (file : Option UploadedFile)
    (cloud : CloudinaryOutcome) (save : Except String Unit) (now : Nat) :
    ReqResult :=
  match file with
  | some f =>
      if f.size > fileSizeLimit then
        ⟨⟨500, .obj [("error", .str "File too large")]⟩, store, []⟩
      else
        uploadHandler store (some f) cloud save now
  | none => uploadHandler store none cloud save now

/-- The sort order of `File.find().sort()` on uploadDate descending:
a later element's date is at most an earlier element's date. -/
def byDateDesc (a b : FileRecord) : Prop := b.uploadDate ≤ a.uploadDate

instance : DecidableRel byDateDesc := fun a b =>
  inferInstanceAs (Decidable (b.uploadDate ≤ a.uploadDate))

instance : IsTotal FileRecord byDateDesc :=
  ⟨fun a b => Nat.le_total b.uploadDate a.uploadDate⟩

instance : IsTrans FileRecord byDateDesc :=
  ⟨fun _ _ _ hab hbc => Nat.le_trans hbc hab⟩

/-- `File.find().sort(uploadDate: -1)`: every document, sorted by
uploadDate descending. -/
def listFiles (store : Store) : List FileRecord :=
  List.insertionSort byDateDesc store.records

/-- The GET /api/files handler: fetch all documents sorted by uploadDate
descending and return them as raw JSON. -/
def filesHandler (store : Store) : ReqResult :=
  ⟨⟨200, .arr ((listFiles store).map (fun r => .obj r.toMongoJson))⟩,
   store, [.dbFindAll]⟩

/-- The DELETE /api/files/:id handler: `findById`; 404 if absent; otherwise
`findByIdAndDelete` and a confirmation message. It never touches Cloudinary. -/
def deleteHandler (store : Store) (id : Nat) : ReqResult :=
  match store.records.find? (fun r => r.mongoId == id) with
  | none =>
      ⟨⟨404, .obj [("error", .str "File not found")]⟩, store, [.dbFindById]⟩
  | some _ =>
      ⟨⟨200, .obj [("message", .str "File deleted from database")]⟩,
       ⟨store.records.filter (fun r => r.mongoId != id), store.nextId⟩,
       [.dbFindById, .dbDeleteById]⟩

/-- The GET /api/test handler: static payload with the
`cloudinary_configured` flag, computed as the truthiness of
`process.env.CLOUDINARY_CLOUD_NAME` alone. No store access, no external
calls. -/
def testHandler (env : Env) : HttpResponse × List Effect :=
  (⟨200, .obj [("message", .str "Backend is working!"),
               ("cloudinary_configured",
                .bool (truthy env.cloudinaryCloudName))]⟩,
   [])

/-- The GET /health handler: status, current timestamp, and the same
`cloudinary_configured` flag (truthiness of the cloud name alone). -/
def healthHandler (env : Env) (timestamp : String) : HttpResponse × List Effect :=
  (⟨200, .obj [("status", .str "OK"),
               ("timestamp", .str timestamp),
               ("cloudinary_configured",
                .bool (truthy env.cloudinaryCloudName))]⟩,
   [])

/-- From the spec (section 6): the storage credentials are three values;
all three configured. Used to compare the spec's reading of the
configuration flag against the code's. -/
def allCredentialsConfigured (env : Env) : Bool :=
  truthy env.cloudinaryCloudName &&
  truthy env.cloudinaryApiKey &&
  truthy env.cloudinaryApiSecret

/-! ## Helper lemmas -/

/-- In a list of records with pairwise-distinct ids (MongoDB assigns a unique
`_id` per document), a record is determined by its id. -/
theorem mongoId_inj {l : List FileRecord}
    (h : l.Pairwise (fun a b => a.mongoId ≠ b.mongoId))
    {a b : FileRecord} (ha : a ∈ l) (hb : b ∈ l)
    (hid : a.mongoId = b.mongoId) : a = b := by
  induction l with
  | nil => cases ha
  | cons x xs ih =>
      rcases List.pairwise_cons.mp h with ⟨hx, hxs⟩
      rcases List.mem_cons.mp ha with ha1 | ha2
      · rcases List.mem_cons.mp hb with hb1 | hb2
        · rw [ha1, hb1]
        · exact absurd (ha1 ▸ hid) (hx b hb2)
      · rcases List.mem_cons.mp hb with hb1 | hb2
        · exact absurd (hb1 ▸ hid.symm) (hx a ha2)
        · exact ih hxs ha2 hb2

/-- With pairwise-distinct ids, filtering out id `i` of a member record `r`
with that id is exactly erasing `r`. -/
theorem filter_mongoId_eq_erase {l : List FileRecord}
    (h : l.Pairwise (fun a b => a.mongoId ≠ b.mongoId))
    {r : FileRecord} (hr : r ∈ l) :
    l.filter (fun s => s.mongoId != r.mongoId) = l.erase r := by
  induction l with
  | nil => cases hr
  | cons x xs ih =>
      rcases List.pairwise_cons.mp h with ⟨hx, hxs⟩
      by_cases hxr : x = r
      · subst hxr
        rw [List.erase_cons_head]
        have hkeep : ∀ s ∈ xs, (s.mongoId != x.mongoId) = true := by
          intro s hs
          simpa [bne] using fun hmid => hx s hs hmid.symm
        rw [List.filter_cons, if_neg (by simp)]
        exact List.filter_eq_self.mpr hkeep
      · have hrxs : r ∈ xs := by
          rcases List.mem_cons.mp hr with h1 | h2
          · exact absurd h1.symm hxr
          · exact h2
        have hxid : x.mongoId ≠ r.mongoId := hx r hrxs
        rw [List.erase_cons_tail]
        · simp only [List.filter_cons]
          rw [if_pos (by simpa [bne] using hxid), ih hxs hrxs]
        · simpa using hxr

/-! ## Claim theorems -/

/-- C1: if the Cloudinary call or the upload stream fails, the upload
request answers with a 500 server error carrying the upstream message, and
the metadata store is exactly what it was before: no FileRecord is
persisted. -/
theorem upload_storage_failure_no_record (store : Store) (f : UploadedFile)
    (cloud : CloudinaryOutcome) (save : Except String Unit) (now : Nat)
    (hfail : ∀ url, cloud ≠ CloudinaryOutcome.ok url)
    (hsize : f.size ≤ fileSizeLimit) :
    (uploadRequest store (some f) cloud save now).response.status = 500 ∧
    (uploadRequest store (some f) cloud save now).store = store := by
  cases cloud with
  | ok url => exact absurd rfl (hfail url)
  | uploadError m =>
      constructor <;>
        simp [uploadRequest, uploadHandler, Nat.not_lt.mpr hsize]
  | streamError m =>
      constructor <;>
        simp [uploadRequest, uploadHandler, Nat.not_lt.mpr hsize]

/-- Witness for C1 at a concrete failing upload. -/
theorem upload_storage_failure_no_record_witness :
    (uploadRequest ⟨[], 0⟩ (some ⟨"a.png", "image/png", 3, [1, 2, 3]⟩)
        (CloudinaryOutcome.uploadError "boom") (Except.ok ()) 7).response.status
      = 500 ∧
    (uploadRequest ⟨[], 0⟩ (some ⟨"a.png", "image/png", 3, [1, 2, 3]⟩)
        (CloudinaryOutcome.uploadError "boom") (Except.ok ()) 7).store
      = ⟨[], 0⟩ :=
  upload_storage_failure_no_record ⟨[], 0⟩ ⟨"a.png", "image/png", 3, [1, 2, 3]⟩
    (CloudinaryOutcome.uploadError "boom") (Except.ok ()) 7
    (fun url h => by cases h) (by decide)

/-- C3: a multipart body with no file field answers 400 with the
"No file uploaded" error, and the store is unchanged: zero FileRecords are
created. -/
theorem upload_missing_file (store : Store) (cloud : CloudinaryOutcome)
    (save : Except String Unit) (now : Nat) :
    (uploadRequest store none cloud save now).response.status = 400 ∧
    (uploadRequest store none cloud save now).response.body
      = JsonVal.obj [("error", JsonVal.str "No file uploaded")] ∧
    (uploadRequest store none cloud save now).store = store ∧
    (uploadRequest store none cloud save now).effects = [] := by
  refine ⟨rfl, rfl, rfl, rfl⟩

/-- C5: a file over the 10 MiB multer limit is rejected with no external
call at all — in particular before any storage call — and no FileRecord is
created. -/
theorem upload_over_limit_rejected (store : Store) (f : UploadedFile)
    (cloud : CloudinaryOutcome) (save : Except String Unit) (now : Nat)
    (hbig : fileSizeLimit < f.size) :
    (uploadRequest store (some f) cloud save now).effects = [] ∧
    Effect.cloudinaryUploadStream
        ∉ (uploadRequest store (some f) cloud save now).effects ∧
    (uploadRequest store (some f) cloud save now).store = store := by
  simp [uploadRequest, hbig]

/-- Witness for C5 at a file of 10 MiB + 1 byte. -/
theorem upload_over_limit_rejected_witness :
    (uploadRequest ⟨[], 0⟩ (some ⟨"big.bin", "application/x", 10485761, []⟩)
        (CloudinaryOutcome.ok "u") (Except.ok ()) 7).effects = [] ∧
    Effect.cloudinaryUploadStream
        ∉ (uploadRequest ⟨[], 0⟩
            (some ⟨"big.bin", "application/x", 10485761, []⟩)
            (CloudinaryOutcome.ok "u") (Except.ok ()) 7).effects ∧
    (uploadRequest ⟨[], 0⟩ (some ⟨"big.bin", "application/x", 10485761, []⟩)
        (CloudinaryOutcome.ok "u") (Except.ok ()) 7).store = ⟨[], 0⟩ :=
  upload_over_limit_rejected ⟨[], 0⟩ ⟨"big.bin", "application/x", 10485761, []⟩
    (CloudinaryOutcome.ok "u") (Except.ok ()) 7 (by decide)

/-- C6: the delete handler never calls Cloudinary — neither an upload nor a
destroy of the remote object — on any input, successful delete included. -/
theorem delete_never_calls_cloudinary (store : Store) (id : Nat) :
    Effect.cloudinaryUploadStream ∉ (deleteHandler store id).effects ∧
    Effect.cloudinaryDestroy ∉ (deleteHandler store id).effects := by
  unfold deleteHandler
  cases store.records.find? (fun r => r.mongoId == id) <;> simp

/-- C7: a fully successful upload (file present and within the limit,
Cloudinary ok, save ok) answers 200 with the created record's id, filename,
URL and timestamp, where the filename is the original upload name and the
URL is the secure URL Cloudinary returned; the record is appended to the
store. -/
theorem upload_success_response (store : Store) (f : UploadedFile)
    (url : String) (now : Nat) (hsize : f.size ≤ fileSizeLimit) :
    (uploadRequest store (some f) (CloudinaryOutcome.ok url)
        (Except.ok ()) now).response.status = 200 ∧
    (uploadRequest store (some f) (CloudinaryOutcome.ok url)
        (Except.ok ()) now).response.body
      = JsonVal.obj
          [("message", JsonVal.str "File uploaded successfully"),
           ("file", JsonVal.obj
             [("id", JsonVal.num store.nextId),
              ("filename", JsonVal.str f.originalname),
              ("url", JsonVal.str url),
              ("uploadDate", JsonVal.num now)])] ∧
    (uploadRequest store (some f) (CloudinaryOutcome.ok url)
        (Except.ok ()) now).store.records
      = store.records
          ++ [⟨store.nextId, f.originalname, f.originalname, url, now⟩] := by
  unfold uploadRequest uploadHandler uploadSuccessBody uploadFileJson
  simp [Nat.not_lt.mpr hsize]

/-- Witness for C7 at a concrete successful upload. -/
theorem upload_success_response_witness :
    (uploadRequest ⟨[], 0⟩ (some ⟨"cat.png", "image/png", 4, [9]⟩)
        (CloudinaryOutcome.ok "https-url")
        (Except.ok ()) 11).response.status = 200 ∧
    (uploadRequest ⟨[], 0⟩ (some ⟨"cat.png", "image/png", 4, [9]⟩)
        (CloudinaryOutcome.ok "https-url")
        (Except.ok ()) 11).response.body
      = JsonVal.obj
          [("message", JsonVal.str "File uploaded successfully"),
           ("file", JsonVal.obj
             [("id", JsonVal.num 0),
              ("filename", JsonVal.str "cat.png"),
              ("url", JsonVal.str "https-url"),
              ("uploadDate", JsonVal.num 11)])] ∧
    (uploadRequest ⟨[], 0⟩ (some ⟨"cat.png", "image/png", 4, [9]⟩)
        (CloudinaryOutcome.ok "https-url")
        (Except.ok ()) 11).store.records
      = [⟨0, "cat.png", "cat.png", "https-url", 11⟩] :=
  upload_success_response ⟨[], 0⟩ ⟨"cat.png", "image/png", 4, [9]⟩
    "https-url" 11 (by decide)

/-- C9: any record the upload request newly persists has both its filename
field and its originalName field equal to the uploaded file's original
name. -/
theorem persisted_name_fields (store : Store) (file : Option UploadedFile)
    (cloud : CloudinaryOutcome) (save : Except String Unit) (now : Nat) :
    ∀ r ∈ (uploadRequest store file cloud save now).store.records,
      r ∉ store.records →
      ∃ f, file = some f ∧ r.filename = f.originalname
        ∧ r.originalName = f.originalname := by
  intro r hr hnot
  cases file with
  | none => exact absurd hr hnot
  | some f =>
      by_cases hbig : fileSizeLimit < f.size
      · simp [uploadRequest, hbig] at hr
        exact absurd hr hnot
      · cases cloud with
        | uploadError m =>
            simp [uploadRequest, uploadHandler, hbig] at hr
            exact absurd hr hnot
        | streamError m =>
            simp [uploadRequest, uploadHandler, hbig] at hr
            exact absurd hr hnot
        | ok url =>
            cases save with
            | error m =>
                simp [uploadRequest, uploadHandler, hbig] at hr
                exact absurd hr hnot
            | ok u =>
                simp [uploadRequest, uploadHandler, hbig] at hr
                rcases hr with hold | hnew
                · exact absurd hold hnot
                · exact ⟨f, rfl, by rw [hnew], by rw [hnew]⟩

/-- Witness for C9 at a concrete upload. -/
theorem persisted_name_fields_witness :
    ∃ f, (some (⟨"dog.jpg", "image/jpeg", 2, [5]⟩ : UploadedFile)) = some f ∧
      (⟨0, "dog.jpg", "dog.jpg", "u", 7⟩ : FileRecord).filename
        = f.originalname ∧
      (⟨0, "dog.jpg", "dog.jpg", "u", 7⟩ : FileRecord).originalName
        = f.originalname :=
  persisted_name_fields ⟨[], 0⟩ (some ⟨"dog.jpg", "image/jpeg", 2, [5]⟩)
    (CloudinaryOutcome.ok "u") (Except.ok ()) 7
    ⟨0, "dog.jpg", "dog.jpg", "u", 7⟩ (by decide) (by decide)

/-- C2 (amended): GET /api/files returns exactly the stored records — a
permutation of the store, so no filtering and no pagination — ordered by
uploadDate in non-increasing (descending) order; records sharing a
timestamp are adjacent, in unspecified relative order. -/
theorem files_all_sorted_desc (store : Store) :
    (listFiles store).Perm store.records ∧
    (listFiles store).Sorted byDateDesc :=
  ⟨List.perm_insertionSort byDateDesc store.records,
   List.sorted_insertionSort byDateDesc store.records⟩

/-- C2 counterexample: with two stored records sharing uploadDate 5, the
list endpoint cannot return all records in strictly descending uploadDate
order — strictness fails on the tie. -/
theorem files_strictly_desc_counterexample :
    ¬ ((listFiles ⟨[⟨0, "a", "a", "u", 5⟩, ⟨1, "b", "b", "v", 5⟩], 2⟩).Perm
          [⟨0, "a", "a", "u", 5⟩, ⟨1, "b", "b", "v", 5⟩] ∧
       (listFiles ⟨[⟨0, "a", "a", "u", 5⟩, ⟨1, "b", "b", "v", 5⟩], 2⟩).Pairwise
          (fun a b => b.uploadDate < a.uploadDate)) := by
  intro hcl
  have h2 := hcl.2
  have heq : listFiles ⟨[⟨0, "a", "a", "u", 5⟩, ⟨1, "b", "b", "v", 5⟩], 2⟩
      = [⟨0, "a", "a", "u", 5⟩, ⟨1, "b", "b", "v", 5⟩] := rfl
  rw [heq] at h2
  have := (List.pairwise_cons.mp h2).1 ⟨1, "b", "b", "v", 5⟩
    (List.mem_singleton.mpr rfl)
  exact absurd this (by simp)

/-- C8 (amended): GET /api/test and GET /health report the
`cloudinary_configured` flag as the truthiness of the cloud-name variable
alone — the API key and secret are not consulted — and neither endpoint has
side effects. -/
theorem configured_flag_is_cloud_name (env : Env) (ts : String) :
    (testHandler env).1.body.getField "cloudinary_configured"
      = some (JsonVal.bool (truthy env.cloudinaryCloudName)) ∧
    (healthHandler env ts).1.body.getField "cloudinary_configured"
      = some (JsonVal.bool (truthy env.cloudinaryCloudName)) ∧
    (testHandler env).2 = [] ∧
    (healthHandler env ts).2 = [] :=
  ⟨rfl, rfl, rfl, rfl⟩

/-- C8 counterexample: with the cloud name set but the API key and secret
missing, both endpoints report the flag as true although not all three
credentials are configured. -/
theorem configured_flag_counterexample :
    (testHandler ⟨some "demo", none, none⟩).1.body.getField
        "cloudinary_configured" = some (JsonVal.bool true) ∧
    (healthHandler ⟨some "demo", none, none⟩ "t").1.body.getField
        "cloudinary_configured" = some (JsonVal.bool true) ∧
    allCredentialsConfigured ⟨some "demo", none, none⟩ = false :=
  ⟨rfl, rfl, rfl⟩

/-- C10 counterexample: a raw stored document does not serialize with the
five field names _id, filename, originalName, cloudinaryUrl, uploadDate
only — it also carries mongoose's default version key __v, which
`res.json(files)` serializes on every saved document. -/
theorem response_shapes_counterexample :
    (FileRecord.toMongoJson ⟨0, "a", "a", "u", 5⟩).map Prod.fst
      ≠ ["_id", "filename", "originalName", "cloudinaryUrl", "uploadDate"] ∧
    "__v" ∈ (FileRecord.toMongoJson ⟨0, "a", "a", "u", 5⟩).map Prod.fst := by
  constructor <;> decide

/-- C10 (amended): the list endpoint returns the raw stored documents, with
field names _id, filename, originalName, cloudinaryUrl, uploadDate, __v
(the mongoose version key, always 0 here), while the upload response
exposes the same record under field names id, filename, url, uploadDate —
a different shape, with id carrying the _id value and url carrying the
cloudinaryUrl value. -/
theorem response_shapes (store : Store) (r : FileRecord) :
    (filesHandler store).response.body
      = JsonVal.arr
          ((listFiles store).map (fun s => JsonVal.obj s.toMongoJson)) ∧
    (FileRecord.toMongoJson r).map Prod.fst
      = ["_id", "filename", "originalName", "cloudinaryUrl", "uploadDate",
         "__v"] ∧
    (uploadFileJson r).map Prod.fst = ["id", "filename", "url", "uploadDate"] ∧
    uploadSuccessBody r
      = JsonVal.obj [("message", JsonVal.str "File uploaded successfully"),
                     ("file", JsonVal.obj (uploadFileJson r))] ∧
    (FileRecord.toMongoJson r).lookup "_id" = some (JsonVal.num r.mongoId) ∧
    (uploadFileJson r).lookup "id" = some (JsonVal.num r.mongoId) ∧
    (FileRecord.toMongoJson r).lookup "cloudinaryUrl"
      = some (JsonVal.str r.cloudinaryUrl) ∧
    (uploadFileJson r).lookup "url" = some (JsonVal.str r.cloudinaryUrl) ∧
    (FileRecord.toMongoJson r).lookup "uploadDate"
      = some (JsonVal.num r.uploadDate) ∧
    (uploadFileJson r).lookup "uploadDate"
      = some (JsonVal.num r.uploadDate) ∧
    (FileRecord.toMongoJson r).lookup "__v" = some (JsonVal.num 0) ∧
    ["_id", "filename", "originalName", "cloudinaryUrl", "uploadDate", "__v"]
      ≠ (["id", "filename", "url", "uploadDate"] : List String) :=
  ⟨rfl, rfl, rfl, rfl, rfl, rfl, rfl, rfl, rfl, rfl, rfl, by decide⟩

/-- C4: under the store invariant that ids are pairwise distinct (MongoDB
assigns a unique _id per document), DELETE /api/files/:id answers 404 and
leaves the store untouched when no record has the id, and otherwise removes
exactly the record with that id, answers 200 with the confirmation message,
and the record no longer appears in the store or in subsequent list
results. -/
theorem delete_spec (store : Store) (id : Nat)
    (huniq : store.records.Pairwise (fun a b => a.mongoId ≠ b.mongoId)) :
    ((∀ r ∈ store.records, r.mongoId ≠ id) →
        (deleteHandler store id).response.status = 404 ∧
        (deleteHandler store id).store = store) ∧
    (∀ r ∈ store.records, r.mongoId = id →
        (deleteHandler store id).response.status = 200 ∧
        (deleteHandler store id).response.body
          = JsonVal.obj
              [("message", JsonVal.str "File deleted from database")] ∧
        (deleteHandler store id).store.records = store.records.erase r ∧
        r ∉ (deleteHandler store id).store.records ∧
        r ∉ listFiles (deleteHandler store id).store) := by
  constructor
  · intro habs
    have hfind : store.records.find? (fun r => r.mongoId == id) = none := by
      apply List.find?_eq_none.mpr
      intro x hx
      simpa using habs x hx
    constructor <;> simp [deleteHandler, hfind]
  · intro r hr hid
    subst hid
    obtain ⟨s, hs⟩ : ∃ s, store.records.find?
        (fun t => t.mongoId == r.mongoId) = some s := by
      cases hf : store.records.find? (fun t => t.mongoId == r.mongoId) with
      | none =>
          have := List.find?_eq_none.mp hf r hr
          simp at this
      | some s => exact ⟨s, rfl⟩
    have hfe := filter_mongoId_eq_erase huniq hr
    have hrecords : (deleteHandler store r.mongoId).store.records
        = store.records.filter (fun s => s.mongoId != r.mongoId) := by
      simp [deleteHandler, hs]
    have hnotmem : r ∉ (deleteHandler store r.mongoId).store.records := by
      rw [hrecords]
      intro hmem
      have hkeep := (List.mem_filter.mp hmem).2
      simp at hkeep
    refine ⟨by simp [deleteHandler, hs], by simp [deleteHandler, hs],
      by rw [hrecords, hfe], hnotmem, ?_⟩
    intro hmem
    exact hnotmem ((List.mem_insertionSort byDateDesc).mp hmem)

/-- Witness for C4: deleting the only stored record by its id answers 200
and empties the store. -/
theorem delete_spec_witness :
    (deleteHandler ⟨[⟨1, "a", "a", "u", 3⟩], 2⟩ 1).response.status = 200 ∧
    (deleteHandler ⟨[⟨1, "a", "a", "u", 3⟩], 2⟩ 1).response.body
      = JsonVal.obj [("message", JsonVal.str "File deleted from database")] ∧
    (deleteHandler ⟨[⟨1, "a", "a", "u", 3⟩], 2⟩ 1).store.records
      = ([⟨1, "a", "a", "u", 3⟩] : List FileRecord).erase ⟨1, "a", "a", "u", 3⟩ ∧
    (⟨1, "a", "a", "u", 3⟩ : FileRecord)
      ∉ (deleteHandler ⟨[⟨1, "a", "a", "u", 3⟩], 2⟩ 1).store.records ∧
    (⟨1, "a", "a", "u", 3⟩ : FileRecord)
      ∉ listFiles (deleteHandler ⟨[⟨1, "a", "a", "u", 3⟩], 2⟩ 1).store :=
  (delete_spec ⟨[⟨1, "a", "a", "u", 3⟩], 2⟩ 1 (by simp)).2
    ⟨1, "a", "a", "u", 3⟩ (List.mem_singleton.mpr rfl) rfl
